import Mathlib

/-!
Shallow embedding of the SecureLens client-side orchestration layer
(src/App.tsx, src/components/ChatWidget.tsx, src/components/LoginModal.tsx).

The external collaborators (the AI gateway, `JSON.parse`, `atob`) are modelled
as function parameters returning `Option`/`Except`; all repository-owned state
transitions are translated directly from the TypeScript source.
-/

namespace SecureLens

/-- `AnalysisResult` (src/types): opaque record from the gateway; the fields the
orchestration layer reads are `riskLevel` and `redFlags` (a countable list). -/
structure AnalysisResult where
  riskLevel : String
  redFlags : List String
  deriving Repr, DecidableEq

/-- `AnalysisHistoryItem` (src/types), created in `handleAnalyze` (src/App.tsx:88-93). -/
structure AnalysisHistoryItem where
  id : String
  timestamp : Nat
  snippet : String
  result : AnalysisResult
  deriving Repr, DecidableEq

/-- `UserProfile` (src/types). `joinedDate` is epoch millis (`Date.now()`). -/
structure UserProfile where
  name : String
  email : String
  avatar : String
  joinedDate : Nat
  deriving Repr, DecidableEq

/-- Message role in the chat widget (src/components/ChatWidget.tsx:11). -/
inductive Role where
  | user
  | model
  deriving Repr, DecidableEq

/-- `Message` (src/components/ChatWidget.tsx:10-15). The optional JS booleans
`liked?`/`disliked?` are modelled as `Bool` with default `false`: the code only
reads them through JS truthiness (`!msg.liked`, `msg.liked ? … : …`), under
which `undefined` and `false` behave identically. -/
structure Message where
  role : Role
  text : String
  liked : Bool := false
  disliked : Bool := false
  deriving Repr, DecidableEq

/-- JS `Array.prototype.map` when the callback also receives the element index,
as in `prev.map((msg, i) => …)` (src/components/ChatWidget.tsx:96). The start
index is explicit so that lemmas can generalize over it. -/
def mapWithIdxFrom (f : Nat → Message → Message) : Nat → List Message → List Message
  | _, [] => []
  | i, m :: rest => f i m :: mapWithIdxFrom f (i + 1) rest

/-- Feedback kind: the `'like' | 'dislike'` argument of `handleFeedback`. -/
inductive FeedbackType where
  | like
  | dislike
  deriving Repr, DecidableEq

/-- The per-message update of `handleFeedback` (src/components/ChatWidget.tsx:98-102):
`liked: type === 'like' ? !msg.liked : false, disliked: type === 'dislike' ? !msg.disliked : false`. -/
def applyFeedback (t : FeedbackType) (m : Message) : Message :=
  { m with
    liked := if t = .like then !m.liked else false
    disliked := if t = .dislike then !m.disliked else false }

/-- `handleFeedback` (src/components/ChatWidget.tsx:95-106):
`setMessages(prev => prev.map((msg, i) => i === index ? {…applyFeedback…} : msg))`. -/
def handleFeedback (msgs : List Message) (index : Nat) (t : FeedbackType) : List Message :=
  mapWithIdxFrom (fun i m => if i = index then applyFeedback t m else m) 0 msgs

/-- Clearing only the flag opposite to `t`, leaving everything else intact.
This is what two successive identical `handleFeedback` calls amount to. -/
def clearOpposite (t : FeedbackType) (m : Message) : Message :=
  match t with
  | .like => { m with disliked := false }
  | .dislike => { m with liked := false }

/-- The whitespace characters recognized by JS `String.prototype.trim` that can
occur in chat input (space, tab, line feed, carriage return, vertical tab,
form feed). -/
def isJsWhitespace (c : Char) : Bool :=
  c = ' ' || c = '\t' || c = '\n' || c = '\r' || c = '\x0b' || c = '\x0c'

/-- JS `String.prototype.trim` on the character list: drop leading and trailing
whitespace. Used by `handleSend` (src/components/ChatWidget.tsx:69,71). -/
def trimChars (l : List Char) : List Char :=
  ((l.dropWhile isJsWhitespace).reverse.dropWhile isJsWhitespace).reverse

/-- JS `textToSend.trim()`. -/
def jsTrim (s : String) : String :=
  ⟨trimChars s.data⟩

/-- Chat widget state: the message list, the in-flight flag and the input box
(src/components/ChatWidget.tsx:26-28). -/
structure ChatState where
  messages : List Message
  isLoading : Bool
  input : String
  deriving Repr, DecidableEq

/-- The single greeting turn synthesized by the reset effect
(src/components/ChatWidget.tsx:49-61): with an analysis result, a summary
naming the risk level and the red-flag count; otherwise the generic greeting. -/
def greetingMessage : Option AnalysisResult → Message
  | some r =>
      { role := .model
        text := "I've analyzed this content (Risk: " ++ r.riskLevel ++ "). Found " ++
          toString r.redFlags.length ++ " red flags. How can I help?" }
  | none =>
      { role := .model
        text := "Hi! I'm SecureLens AI. Ask me anything about online safety or scam detection." }

/-- The reset effect (src/components/ChatWidget.tsx:49-61), run whenever the
`analysisResult` reference changes: `setMessages([greeting])`. -/
def resetChat (analysisResult : Option AnalysisResult) (s : ChatState) : ChatState :=
  { s with messages := [greetingMessage analysisResult] }

/-- The fallback model turn appended when the chat gateway call throws
(src/components/ChatWidget.tsx:89). -/
def fallbackText : String :=
  "Issue detected. Please rephrase your question."

/-- `handleSend` (src/components/ChatWidget.tsx:68-93). The gateway
(`sendChatResponse`) is a parameter; it receives the conversation history
snapshot taken BEFORE the optimistic user append (line 79 reads the stale
`messages`), the trimmed user message and the optional analysis result.
Returns the new state and whether a gateway call was made. The guard
`if (!textToSend.trim() || isLoading) return;` ignores the send entirely. -/
def handleSend (analysisResult : Option AnalysisResult)
    (gateway : List (Role × String) → String → Option AnalysisResult → Except Unit String)
    (s : ChatState) (textToSend : String) : ChatState × Bool :=
  if jsTrim textToSend = "" || s.isLoading then (s, false)
  else
    let userMessage := jsTrim textToSend
    let conversationHistory := s.messages.map (fun m => (m.role, m.text))
    match gateway conversationHistory userMessage analysisResult with
    | .ok responseText =>
        ({ messages := s.messages ++ [{ role := .user, text := userMessage },
             { role := .model, text := responseText }]
           isLoading := false
           input := "" }, true)
    | .error _ =>
        ({ messages := s.messages ++ [{ role := .user, text := userMessage },
             { role := .model, text := fallbackText }]
           isLoading := false
           input := "" }, true)

/-- App-level analysis state (src/App.tsx:14-17): the current result, the
in-flight flag, the error banner slot and the scan history. -/
structure AppState where
  result : Option AnalysisResult
  isAnalyzing : Bool
  error : Option String
  history : List AnalysisHistoryItem
  deriving Repr, DecidableEq

/-- The initial analysis state (src/App.tsx:14-17). -/
def initialAppState : AppState :=
  { result := none, isAnalyzing := false, error := none, history := [] }

/-- The snippet of a history item (src/App.tsx:91):
`text ? (text.length > 50 ? text.substring(0, 50) + '...' : text) : 'Image Analysis'`. -/
def mkSnippet (text : String) : String :=
  if text ≠ "" then
    (if text.length > 50 then String.take text 50 ++ "..." else text)
  else "Image Analysis"

/-- The error banner text set when the analysis gateway call fails
(src/App.tsx:101). -/
def analysisErrorText : String :=
  "Analysis failed. Please try again later or check your connection."

/-- The history item built on a successful analysis (src/App.tsx:88-93);
`now` is `Date.now()` (both the id, via `toString`, and the timestamp). -/
def mkHistoryItem (text : String) (now : Nat) (data : AnalysisResult) : AnalysisHistoryItem :=
  { id := toString now, timestamp := now, snippet := mkSnippet text, result := data }

/-- `handleAnalyze` (src/App.tsx:81-106), with the whole awaited gateway call
collapsed into one step (the gateway outcome is the `gateway` argument).
On success: set the result, prepend a fresh history item. On failure: set the
error banner, leave result and history alone. `finally` clears the in-flight
flag either way. -/
def handleAnalyze (s : AppState) (text : String) (now : Nat)
    (gateway : Except Unit AnalysisResult) : AppState :=
  match gateway with
  | .ok data =>
      { s with
        result := some data
        isAnalyzing := false
        error := none
        history := mkHistoryItem text now data :: s.history }
  | .error _ =>
      { s with
        isAnalyzing := false
        error := some analysisErrorText }

/-- Modelled from the spec: the analyzer form (src/components/AnalyzerForm.tsx,
which receives the `isAnalyzing` prop but is not among the provided sources)
gates submission; per the spec, "While a request is in flight, concurrent
submission attempts must be ignored (single in-flight slot, no queueing)".
A submission while `isAnalyzing` is set changes nothing and makes no gateway
call; otherwise it runs `handleAnalyze`. The `Bool` records whether the
gateway was called. -/
def submitAnalyze (s : AppState) (text : String) (now : Nat)
    (gateway : Except Unit AnalysisResult) : AppState × Bool :=
  if s.isAnalyzing then (s, false)
  else (handleAnalyze s text now gateway, true)

/-- A sequence of successful analyses: each triple is the submitted text, the
`Date.now()` value and the gateway result, folded through `handleAnalyze`. -/
def runAnalyses (s : AppState) : List (String × Nat × AnalysisResult) → AppState
  | [] => s
  | (text, now, data) :: rest => runAnalyses (handleAnalyze s text now (.ok data)) rest

/-- The history item a trace entry produces. -/
def itemFor (e : String × Nat × AnalysisResult) : AnalysisHistoryItem :=
  mkHistoryItem e.1 e.2.1 e.2.2

/-- `deleteHistoryItem` (src/App.tsx:121-124):
`setHistory(prev => prev.filter(item => item.id !== id))`. -/
def deleteHistoryItem (history : List AnalysisHistoryItem) (id : String) :
    List AnalysisHistoryItem :=
  history.filter (fun item => item.id != id)

/-- JS `a || b` on nullable strings (`localStorage.getItem(k) || sessionStorage.getItem(k)`,
src/App.tsx:29): the first operand wins unless it is falsy (`null` or `""`). -/
def jsOrStr (a b : Option String) : Option String :=
  match a with
  | some s => if s = "" then b else some s
  | none => b

/-- The session-restore effect (src/App.tsx:28-36). `parse` stands for the host
builtin `JSON.parse` composed with the profile shape, returning `none` exactly
when `JSON.parse` throws: `setUser` runs only inside the `try`, and the `catch`
only logs (`console.error`), so a parse failure yields no user and surfaces
nothing. `if (storedUser)` is JS truthiness on the `||` of the two reads. -/
def restoreUser (parse : String → Option UserProfile)
    (localStore sessionStore : Option String) : Option UserProfile :=
  match jsOrStr localStore sessionStore with
  | some storedUser => if storedUser = "" then none else parse storedUser
  | none => none

/-- The two key-value stores, each holding at most the `securelens_user` key
(src/App.tsx:29, src/components/LoginModal.tsx:71-75). -/
structure StoreState where
  localStore : Option String
  sessionStore : Option String
  deriving Repr, DecidableEq

/-- The unverified display fields read from a Google credential payload
(src/components/LoginModal.tsx:64-69): `payload.name/email/picture`. -/
structure ProfilePayload where
  name : String
  email : String
  picture : String
  deriving Repr, DecidableEq

/-- JS `String.prototype.split('.')` (helper for `splitDot`): cut the character
list at every dot, keeping empty segments. -/
def splitDotAux : List Char → List Char → List String
  | [], acc => [⟨acc.reverse⟩]
  | c :: rest, acc =>
      if c = '.' then ⟨acc.reverse⟩ :: splitDotAux rest []
      else splitDotAux rest (c :: acc)

/-- JS `credential.split('.')` (src/components/LoginModal.tsx:56). -/
def splitDot (s : String) : List String :=
  splitDotAux s.data []

/-- The credential decode of `handleGoogleResponse`
(src/components/LoginModal.tsx:56-62): take segment 1 of the JWT split on `.`
(an absent segment makes the subsequent `.replace` throw), rewrite base64url to
base64, then `atob` + the percent-encoding round-trip + `JSON.parse` — the
latter are host builtins, modelled as the `atob` and `parseJson` parameters
returning `none` exactly when they throw. -/
def decodeCredentialPayload (atob : String → Option String)
    (parseJson : String → Option ProfilePayload) (credential : String) :
    Option ProfilePayload :=
  match (splitDot credential)[1]? with
  | none => none
  | some base64Url =>
      let base64 := (base64Url.replace "-" "+").replace "_" "/"
      match atob base64 with
      | none => none
      | some jsonPayload => parseJson jsonPayload

/-- The outcome of `handleGoogleResponse`: the signed-in user (if any), the
stores after any write, the modal error slot (rendered as an inline banner,
src/components/LoginModal.tsx:141-146) and the loading flag. -/
structure GoogleSignInOutcome where
  user : Option UserProfile
  stores : StoreState
  error : Option String
  loading : Bool
  deriving Repr, DecidableEq

/-- The error banner text of the credential failure path
(src/components/LoginModal.tsx:81). -/
def googleAuthErrorText : String :=
  "Google authentication failed. Please try again."

/-- `handleGoogleResponse` (src/components/LoginModal.tsx:52-84). On a
successful decode: build the profile (`joinedDate` is `Date.now()`), write it
to exactly one store chosen by `rememberMe` (`encodeProfile` is
`JSON.stringify`), sign the user in, clear loading. On any decode failure the
`catch` sets the modal error banner, signs nobody in and writes no store. -/
def handleGoogleResponse (atob : String → Option String)
    (parseJson : String → Option ProfilePayload) (encodeProfile : UserProfile → String)
    (rememberMe : Bool) (now : Nat) (stores : StoreState) (credential : String) :
    GoogleSignInOutcome :=
  match decodeCredentialPayload atob parseJson credential with
  | some payload =>
      let newUser : UserProfile :=
        { name := payload.name, email := payload.email, avatar := payload.picture,
          joinedDate := now }
      { user := some newUser
        stores :=
          if rememberMe then { stores with localStore := some (encodeProfile newUser) }
          else { stores with sessionStore := some (encodeProfile newUser) }
        error := none
        loading := false }
  | none =>
      { user := none, stores := stores, error := some googleAuthErrorText, loading := false }

/-- The boolean flag of a message that a feedback kind toggles. -/
def feedbackFlag : FeedbackType → Message → Bool
  | .like, m => m.liked
  | .dislike, m => m.disliked

/-- Concrete fixtures used by the counterexamples and witnesses below. -/
def safeResult : AnalysisResult :=
  { riskLevel := "Safe", redFlags := [] }

def highResult : AnalysisResult :=
  { riskLevel := "High Risk", redFlags := ["a", "b", "c"] }

def exMsgs : List Message :=
  [{ role := .model, text := "hi" }]

def exMsgsLiked : List Message :=
  [{ role := .model, text := "hi", liked := true }]

def exMsgsTwo : List Message :=
  [{ role := .user, text := "q" }, { role := .model, text := "a" }]

/-- A gateway whose chat call always fails. -/
def failingGateway :
    List (Role × String) → String → Option AnalysisResult → Except Unit String :=
  fun _ _ _ => .error ()

/-- The chat state the widget is in before any user interaction: the reset
effect has run once on mount (src/components/ChatWidget.tsx:49-61) with no
analysis result, so the list holds exactly the generic greeting. -/
def initialChatState : ChatState :=
  resetChat none { messages := [], isLoading := false, input := "" }

/-- A `JSON.parse`-shaped parameter that always fails. -/
def noParseProfile : String → Option UserProfile := fun _ => none

def noParsePayload : String → Option ProfilePayload := fun _ => none

def noAtob : String → Option String := fun _ => none

def emptyStores : StoreState :=
  { localStore := none, sessionStore := none }

def exProfile : UserProfile :=
  { name := "n", email := "e", avatar := "a", joinedDate := 0 }

/-- A history whose two items carry the same id, as produced by two successful
analyses within the same millisecond (`Date.now().toString()`, src/App.tsx:89). -/
def dupHistory : List AnalysisHistoryItem :=
  [{ id := "1", timestamp := 1, snippet := "a", result := safeResult },
   { id := "1", timestamp := 1, snippet := "b", result := safeResult }]

/-- A history with three distinct ids. -/
def exHistory : List AnalysisHistoryItem :=
  [{ id := "1", timestamp := 1, snippet := "a", result := safeResult },
   { id := "2", timestamp := 2, snippet := "b", result := highResult },
   { id := "3", timestamp := 3, snippet := "c", result := safeResult }]

/-! ## Helper lemmas -/

theorem mapWithIdxFrom_length (f : Nat → Message → Message) (n : Nat)
    (msgs : List Message) : (mapWithIdxFrom f n msgs).length = msgs.length := by
  induction msgs generalizing n with
  | nil => rfl
  | cons m rest ih => simp [mapWithIdxFrom, ih]

theorem mapWithIdxFrom_getElem? (f : Nat → Message → Message) (n j : Nat)
    (msgs : List Message) :
    (mapWithIdxFrom f n msgs)[j]? = (msgs[j]?).map (f (n + j)) := by
  induction msgs generalizing n j with
  | nil => simp [mapWithIdxFrom]
  | cons m rest ih =>
    cases j with
    | zero => simp [mapWithIdxFrom]
    | succ j =>
      have e : n + (j + 1) = n + 1 + j := by omega
      simp only [mapWithIdxFrom, List.getElem?_cons_succ, e, ih (n + 1) j]

theorem handleFeedback_getElem? (msgs : List Message) (index : Nat)
    (t : FeedbackType) (j : Nat) :
    (handleFeedback msgs index t)[j]? =
      (msgs[j]?).map (fun m => if j = index then applyFeedback t m else m) := by
  simp [handleFeedback, mapWithIdxFrom_getElem?]

theorem mapWithIdxFrom_congr (f g : Nat → Message → Message) (n : Nat)
    (msgs : List Message) (h : ∀ i m, f i m = g i m) :
    mapWithIdxFrom f n msgs = mapWithIdxFrom g n msgs := by
  induction msgs generalizing n with
  | nil => rfl
  | cons m rest ih => simp [mapWithIdxFrom, h, ih]

theorem mapWithIdxFrom_comp (f g : Nat → Message → Message) (n : Nat)
    (msgs : List Message) :
    mapWithIdxFrom f n (mapWithIdxFrom g n msgs) =
      mapWithIdxFrom (fun i m => f i (g i m)) n msgs := by
  induction msgs generalizing n with
  | nil => rfl
  | cons m rest ih => simp [mapWithIdxFrom, ih]

theorem applyFeedback_applyFeedback (t : FeedbackType) (m : Message) :
    applyFeedback t (applyFeedback t m) = clearOpposite t m := by
  cases t <;> cases m <;> simp [applyFeedback, clearOpposite]

/-- Two successive identical feedback calls restore the toggled flag to its
original value and clear the opposite flag, at every index. -/
theorem handleFeedback_twice_eq (msgs : List Message) (i : Nat) (t : FeedbackType) :
    handleFeedback (handleFeedback msgs i t) i t =
      mapWithIdxFrom (fun j m => if j = i then clearOpposite t m else m) 0 msgs := by
  unfold handleFeedback
  rw [mapWithIdxFrom_comp]
  apply mapWithIdxFrom_congr
  intro j m
  by_cases h : j = i <;> simp [h, applyFeedback_applyFeedback]

/-! ## Claim theorems -/

/-- C4, counterexample: `setFeedback` is NOT idempotent. On a single fresh model
message, liking it twice (which unsets the flag again) differs from liking it
once (which sets it): `handleFeedback` toggles, it does not idempotently set. -/
theorem setFeedback_not_idempotent_cex :
    handleFeedback (handleFeedback exMsgs 0 .like) 0 .like ≠ handleFeedback exMsgs 0 .like := by
  decide

/-- C4, amended: applying `setFeedback(i, t)` twice in succession does not leave
the list as one application would; instead it restores the `t`-flag of message
`i` to its prior value and clears the opposite flag (double application equals
clearing the opposite flag at `i`). In particular the entry at `i` becomes
`clearOpposite t` of the original message. -/
theorem setFeedback_double_application (msgs : List Message) (i : Nat) (t : FeedbackType) :
    handleFeedback (handleFeedback msgs i t) i t =
      mapWithIdxFrom (fun j m => if j = i then clearOpposite t m else m) 0 msgs ∧
    (handleFeedback (handleFeedback msgs i t) i t)[i]? = (msgs[i]?).map (clearOpposite t) := by
  refine ⟨handleFeedback_twice_eq msgs i t, ?_⟩
  rw [handleFeedback_twice_eq msgs i t, mapWithIdxFrom_getElem?]
  simp

/-- C7, counterexample: applying the same feedback kind twice does NOT always
return the message to the unset state. Starting from a message whose `liked`
flag is already set, two like calls toggle it off and back on, leaving the
message liked (indeed, the list is unchanged), not unset. -/
theorem feedback_double_not_unset_cex :
    handleFeedback (handleFeedback exMsgsLiked 0 .like) 0 .like = exMsgsLiked ∧
    exMsgsLiked.head?.map Message.liked = some true := by
  decide

/-- C7, amended: after any `setFeedback(i, t)` the message at `i` never has both
flags set — liking clears any dislike and disliking clears any like — and
applying the same kind twice returns the message at `i` to the fully unset
state provided its `t`-flag was unset before the first call (as it is on every
freshly created message). -/
theorem feedback_exclusion_toggle (msgs : List Message) (i : Nat) (t : FeedbackType) :
    (∀ m, (handleFeedback msgs i t)[i]? = some m →
      (m.liked && m.disliked) = false ∧
      (t = .like → m.disliked = false) ∧ (t = .dislike → m.liked = false)) ∧
    (∀ m, msgs[i]? = some m → feedbackFlag t m = false →
      (handleFeedback (handleFeedback msgs i t) i t)[i]? =
        some { m with liked := false, disliked := false }) := by
  constructor
  · intro m hm
    rw [handleFeedback_getElem?, Option.map_eq_some'] at hm
    obtain ⟨m0, hm0, hm1⟩ := hm
    rw [if_pos rfl] at hm1
    subst hm1
    cases t <;> simp [applyFeedback]
  · intro m hm hflag
    rw [handleFeedback_twice_eq msgs i t, mapWithIdxFrom_getElem?, hm]
    simp only [Option.map_some, Nat.zero_add, if_pos rfl]
    cases t <;> cases m <;> simp_all [clearOpposite, feedbackFlag]

/-- C7, witness: on a fresh model message, a like call leaves the dislike flag
clear, and two successive like calls leave the message fully unset. -/
theorem feedback_exclusion_toggle_witness :
    ({ role := Role.model, text := "hi", liked := true, disliked := false } : Message).disliked
      = false ∧
    (handleFeedback (handleFeedback exMsgs 0 .like) 0 .like)[0]? =
      some { role := Role.model, text := "hi", liked := false, disliked := false } := by
  constructor
  · exact (((feedback_exclusion_toggle exMsgs 0 .like).1
      { role := Role.model, text := "hi", liked := true, disliked := false }
      (by decide)).2.1) rfl
  · exact (feedback_exclusion_toggle exMsgs 0 .like).2
      { role := Role.model, text := "hi" } (by decide) (by decide)

/-- C10: `handleFeedback(i, t)` is frame-preserving: the length is unchanged,
every message at an index other than `i` is untouched, the message at `i`
keeps its role and text (only the liked/disliked flags may change), and an
out-of-bounds index leaves the whole list unchanged. -/
theorem handleFeedback_frame (msgs : List Message) (i : Nat) (t : FeedbackType) :
    (handleFeedback msgs i t).length = msgs.length ∧
    (∀ j, j ≠ i → (handleFeedback msgs i t)[j]? = msgs[j]?) ∧
    (handleFeedback msgs i t)[i]?.map (fun m => (m.role, m.text)) =
      msgs[i]?.map (fun m => (m.role, m.text)) ∧
    (msgs.length ≤ i → handleFeedback msgs i t = msgs) := by
  refine ⟨mapWithIdxFrom_length _ 0 msgs, ?_, ?_, ?_⟩
  · intro j hj
    rw [handleFeedback_getElem?]
    simp [hj]
  · rw [handleFeedback_getElem?]
    cases hmi : msgs[i]? with
    | none => rfl
    | some m => simp [applyFeedback]
  · intro hlen
    apply List.ext_getElem?
    intro j
    rw [handleFeedback_getElem?]
    by_cases hj : j = i
    · subst hj
      rw [List.getElem?_eq_none hlen]
      rfl
    · simp [hj]

/-- C10, witness: on a two-message list, feedback at index 1 leaves index 0
untouched, and feedback at the out-of-bounds index 5 is a no-op. -/
theorem handleFeedback_frame_witness :
    (handleFeedback exMsgsTwo 1 .like)[0]? = exMsgsTwo[0]? ∧
    handleFeedback exMsgsTwo 5 .like = exMsgsTwo :=
  ⟨(handleFeedback_frame exMsgsTwo 1 .like).2.1 0 (by decide),
   (handleFeedback_frame exMsgsTwo 5 .like).2.2.2 (by decide)⟩

theorem runAnalyses_history_eq (s : AppState) (L : List (String × Nat × AnalysisResult)) :
    (runAnalyses s L).history = (L.map itemFor).reverse ++ s.history := by
  induction L generalizing s with
  | nil => rfl
  | cons e rest ih =>
    obtain ⟨text, now, data⟩ := e
    simp [runAnalyses, handleAnalyze, ih, itemFor, mkHistoryItem]

theorem runAnalyses_head_result (s : AppState) (L : List (String × Nat × AnalysisResult))
    (h : L ≠ []) :
    ∃ it, (runAnalyses s L).history.head? = some it ∧
      (runAnalyses s L).result = some it.result := by
  induction L generalizing s with
  | nil => exact absurd rfl h
  | cons e rest ih =>
    obtain ⟨text, now, data⟩ := e
    cases rest with
    | nil => exact ⟨mkHistoryItem text now data, rfl, rfl⟩
    | cons e2 rest2 => exact ih _ (by simp)

/-- C1: for every sequence of successful analyses from the initial state, the
history is exactly the items of the trace most-recent-first (each success
prepends its fresh item), its length equals the number of successes, and after
a non-empty trace the first history entry carries the same `AnalysisResult` as
the current result. -/
theorem analysis_success_history (L : List (String × Nat × AnalysisResult)) :
    (runAnalyses initialAppState L).history = (L.map itemFor).reverse ∧
    (runAnalyses initialAppState L).history.length = L.length ∧
    (∀ s text now data, (handleAnalyze s text now (.ok data)).history =
      mkHistoryItem text now data :: s.history) ∧
    (L ≠ [] → ∃ it, (runAnalyses initialAppState L).history.head? = some it ∧
      (runAnalyses initialAppState L).result = some it.result) := by
  refine ⟨?_, ?_, fun s text now data => rfl, fun h => runAnalyses_head_result _ L h⟩
  · simpa [initialAppState] using runAnalyses_history_eq initialAppState L
  · rw [runAnalyses_history_eq]
    simp [initialAppState]

/-- C1, witness: after the one-element trace analyzing "hello", the single
history entry's result is the current result. -/
theorem analysis_success_history_witness :
    ∃ it, (runAnalyses initialAppState [("hello", 1, safeResult)]).history.head? = some it ∧
      (runAnalyses initialAppState [("hello", 1, safeResult)]).result = some it.result :=
  (analysis_success_history [("hello", 1, safeResult)]).2.2.2 (by decide)

/-- C3: while the in-flight flag is set, a submission is ignored: the state is
returned unchanged (no history entry, no result or error change) and no
gateway call is made. -/
theorem submitAnalyze_inflight_ignored (s : AppState) (text : String) (now : Nat)
    (gateway : Except Unit AnalysisResult) (h : s.isAnalyzing = true) :
    submitAnalyze s text now gateway = (s, false) := by
  simp [submitAnalyze, h]

/-- C3, witness: a concrete submission while a request is in flight changes
nothing and calls no gateway. -/
theorem submitAnalyze_inflight_ignored_witness :
    submitAnalyze { initialAppState with isAnalyzing := true } "x" 1 (.ok safeResult) =
      ({ initialAppState with isAnalyzing := true }, false) :=
  submitAnalyze_inflight_ignored { initialAppState with isAnalyzing := true } "x" 1
    (.ok safeResult) rfl

/-- C9, counterexample: `deleteHistoryItem` filters by id, so on a history whose
two items share an id (two successes in the same millisecond yield the same
`Date.now().toString()` id), deleting that id removes BOTH items, not exactly
one. -/
theorem deleteHistoryItem_duplicate_ids_cex :
    dupHistory.length = 2 ∧ deleteHistoryItem dupHistory "1" = [] := by
  decide

/-- C9, amended: `deleteHistoryItem(id)` removes every item whose id matches,
preserving the relative order of the rest (the result is a sublist); deleting
an id no item has is a no-op; and when exactly one item carries the id, exactly
that item is removed and all others keep their relative order. -/
theorem deleteHistoryItem_correct (history : List AnalysisHistoryItem) (id : String) :
    ((∀ item ∈ history, item.id ≠ id) → deleteHistoryItem history id = history) ∧
    (deleteHistoryItem history id).Sublist history ∧
    (∀ pre x post, history = pre ++ x :: post → x.id = id →
      (∀ y ∈ pre, y.id ≠ id) → (∀ y ∈ post, y.id ≠ id) →
      deleteHistoryItem history id = pre ++ post) := by
  refine ⟨?_, List.filter_sublist _, ?_⟩
  · intro h
    apply List.filter_eq_self.mpr
    intro a ha
    simpa using h a ha
  · rintro pre x post rfl hx hpre hpost
    have hpre' : pre.filter (fun item => item.id != id) = pre :=
      List.filter_eq_self.mpr (fun a ha => by simpa using hpre a ha)
    have hpost' : post.filter (fun item => item.id != id) = post :=
      List.filter_eq_self.mpr (fun a ha => by simpa using hpost a ha)
    simp [deleteHistoryItem, List.filter_append, hpre', hpost', hx]

/-- C9, witness: on a three-item history with distinct ids, deleting an absent
id is a no-op and deleting the middle id removes exactly the middle item. -/
theorem deleteHistoryItem_correct_witness :
    deleteHistoryItem exHistory "9" = exHistory ∧
    deleteHistoryItem exHistory "2" =
      [{ id := "1", timestamp := 1, snippet := "a", result := safeResult },
       { id := "3", timestamp := 3, snippet := "c", result := safeResult }] := by
  constructor
  · exact (deleteHistoryItem_correct exHistory "9").1 (by decide)
  · exact (deleteHistoryItem_correct exHistory "2").2.2
      [{ id := "1", timestamp := 1, snippet := "a", result := safeResult }]
      { id := "2", timestamp := 2, snippet := "b", result := highResult }
      [{ id := "3", timestamp := 3, snippet := "c", result := safeResult }]
      (by decide) (by decide) (by decide) (by decide)

theorem jsTrim_eq_empty_of_whitespace (s : String)
    (h : ∀ c ∈ s.data, isJsWhitespace c) : jsTrim s = "" := by
  have h1 : s.data.dropWhile isJsWhitespace = [] :=
    List.dropWhile_eq_nil_iff.mpr h
  simp [jsTrim, trimChars, h1]

/-- C8: a send whose input trims to nothing (empty or all whitespace), or a
send attempted while a reply is in flight, is ignored: the state (messages
included) is unchanged and no gateway call is made. -/
theorem chat_send_rejects_blank_or_inflight (ar : Option AnalysisResult)
    (gw : List (Role × String) → String → Option AnalysisResult → Except Unit String)
    (s : ChatState) (textToSend : String)
    (h : (∀ c ∈ textToSend.data, isJsWhitespace c) ∨ s.isLoading = true) :
    handleSend ar gw s textToSend = (s, false) := by
  rcases h with h | h
  · simp [handleSend, jsTrim_eq_empty_of_whitespace _ h]
  · simp [handleSend, h]

/-- C8, witness: sending three spaces from the initial chat state, and sending
real text while a reply is in flight, both change nothing and call no gateway. -/
theorem chat_send_rejects_blank_or_inflight_witness :
    handleSend none failingGateway initialChatState "   " = (initialChatState, false) ∧
    handleSend none failingGateway { initialChatState with isLoading := true } "hello" =
      ({ initialChatState with isLoading := true }, false) :=
  ⟨chat_send_rejects_blank_or_inflight none failingGateway initialChatState "   "
    (Or.inl (by decide)),
   chat_send_rejects_blank_or_inflight none failingGateway
    { initialChatState with isLoading := true } "hello" (Or.inr rfl)⟩

/-- C2, counterexample: the widget mounts with one synthesized greeting turn
(the reset effect), so after one failed send the conversation holds THREE
turns (greeting, user, fallback), not two as claimed. -/
theorem chat_failure_two_turns_cex :
    (handleSend none failingGateway initialChatState "is this a scam?").1.messages.length ≠ 2 ∧
    (handleSend none failingGateway initialChatState "is this a scam?").1.messages.length = 3 := by
  decide

/-- C2, amended: a send whose gateway call fails appends the user turn plus
exactly one fallback model turn with the fixed rephrase text — exactly two
turns more than before the send (three in total from the initial
single-greeting state) — and `handleSend` returns normally (a total function;
the failure is absorbed into the fallback turn, no exception reaches the
caller). -/
theorem chat_failure_appends_user_and_fallback (ar : Option AnalysisResult)
    (gw : List (Role × String) → String → Option AnalysisResult → Except Unit String)
    (s : ChatState) (textToSend : String)
    (hload : s.isLoading = false) (htrim : jsTrim textToSend ≠ "")
    (hfail : gw (s.messages.map fun m => (m.role, m.text)) (jsTrim textToSend) ar =
      .error ()) :
    handleSend ar gw s textToSend =
      ({ messages := s.messages ++ [{ role := .user, text := jsTrim textToSend },
          { role := .model, text := fallbackText }],
         isLoading := false, input := "" }, true) ∧
    (handleSend ar gw s textToSend).1.messages.length = s.messages.length + 2 := by
  have hmain : handleSend ar gw s textToSend =
      ({ messages := s.messages ++ [{ role := .user, text := jsTrim textToSend },
          { role := .model, text := fallbackText }],
         isLoading := false, input := "" }, true) := by
    simp [handleSend, hload, htrim, hfail]
  exact ⟨hmain, by rw [hmain]; simp⟩

/-- C2, witness: sending "is this a scam?" from the initial chat state with a
failing gateway yields the greeting, the user turn and the fallback turn. -/
theorem chat_failure_appends_user_and_fallback_witness :
    handleSend none failingGateway initialChatState "is this a scam?" =
      ({ messages := initialChatState.messages ++
          [{ role := Role.user, text := "is this a scam?" },
           { role := Role.model, text := fallbackText }],
         isLoading := false, input := "" }, true) := by
  have h := (chat_failure_appends_user_and_fallback none failingGateway initialChatState
    "is this a scam?" rfl (by decide) rfl).1
  exact h.trans (by decide)

/-- C6: resetting the chat on an analysis-result change always yields exactly
one model greeting turn, for every prior chat state: with a result present the
greeting names its risk level and red-flag count, otherwise it is the fixed
generic greeting. -/
theorem chat_reset_single_greeting (s : ChatState) (ar : Option AnalysisResult) :
    (resetChat ar s).messages = [greetingMessage ar] ∧
    (resetChat ar s).messages.length = 1 ∧
    (greetingMessage ar).role = .model ∧
    (∀ r, ar = some r → (greetingMessage ar).text =
      "I've analyzed this content (Risk: " ++ r.riskLevel ++ "). Found " ++
        toString r.redFlags.length ++ " red flags. How can I help?") ∧
    (ar = none → (greetingMessage ar).text =
      "Hi! I'm SecureLens AI. Ask me anything about online safety or scam detection.") := by
  refine ⟨rfl, rfl, ?_, ?_, ?_⟩
  · cases ar <;> rfl
  · rintro r rfl
    rfl
  · rintro rfl
    rfl

/-- C6, witness: with the concrete high-risk result the greeting names "High
Risk" and the count 3; with no result it is the generic greeting. -/
theorem chat_reset_single_greeting_witness :
    (greetingMessage (some highResult)).text =
      "I've analyzed this content (Risk: High Risk). Found 3 red flags. How can I help?" ∧
    (greetingMessage none).text =
      "Hi! I'm SecureLens AI. Ask me anything about online safety or scam detection." := by
  constructor
  · have h := (chat_reset_single_greeting initialChatState (some highResult)).2.2.2.1
      highResult rfl
    exact h.trans (by decide)
  · exact (chat_reset_single_greeting initialChatState none).2.2.2.2 rfl

/-- C5, counterexample: the credential-decode failure path IS surfaced to the
user: on the malformed credential "x" (no payload segment) the catch block
sets the modal's inline error banner, so the error slot is not left empty. -/
theorem credential_failure_surfaces_error_cex :
    (handleGoogleResponse noAtob noParsePayload (fun _ => "") true 0 emptyStores "x").error ≠
      none ∧
    (handleGoogleResponse noAtob noParsePayload (fun _ => "") true 0 emptyStores "x").error =
      some googleAuthErrorText := by
  decide

/-- C5, amended: a parse failure of the persisted session is recovered silently
as "no session" (restore yields no user and has no error output at all), and a
credential-decode failure signs nobody in and writes to no store — but it does
surface an inline error banner ("Google authentication failed. Please try
again.") in the login modal. -/
theorem parse_failures_yield_no_session (parse : String → Option UserProfile)
    (localStore sessionStore : Option String) (atob : String → Option String)
    (parseJson : String → Option ProfilePayload) (encodeProfile : UserProfile → String)
    (rememberMe : Bool) (now : Nat) (stores : StoreState) (credential : String)
    (hparse : ∀ str, parse str = none)
    (hdecode : decodeCredentialPayload atob parseJson credential = none) :
    restoreUser parse localStore sessionStore = none ∧
    handleGoogleResponse atob parseJson encodeProfile rememberMe now stores credential =
      { user := none, stores := stores, error := some googleAuthErrorText,
        loading := false } := by
  constructor
  · unfold restoreUser
    cases jsOrStr localStore sessionStore with
    | none => rfl
    | some stored => by_cases h : stored = "" <;> simp [h, hparse]
  · unfold handleGoogleResponse
    rw [hdecode]

/-- C5, witness: a stored profile no parse accepts restores to no user, and the
malformed credential "x" yields no user, untouched stores and the banner. -/
theorem parse_failures_yield_no_session_witness :
    restoreUser noParseProfile (some "garbage") none = none ∧
    handleGoogleResponse noAtob noParsePayload (fun _ => "") true 0 emptyStores "x" =
      { user := none, stores := emptyStores, error := some googleAuthErrorText,
        loading := false } :=
  parse_failures_yield_no_session noParseProfile (some "garbage") none noAtob
    noParsePayload (fun _ => "") true 0 emptyStores "x" (fun _ => rfl) (by decide)

end SecureLens
